import Mathlib

/-!
Verification of the zepto scraper pipeline (src/zepto_scraper.py,
src/api_helpers.py, src/utils.py, src/flow_zepto.py) via a shallow
embedding.  Network effects are modelled by explicit environment values
describing each upstream response; randomized identity generation
(utils.get_fresh_headers and friends) is modelled by a monotone counter,
so that each call to the generator consumes one fresh identity
(identities drawn at distinct counter values are distinct).  Python
exceptions that the source catches are modelled as Option/None at the
points where the source catches them; exceptions the source does not
catch are modelled with an explicit PyResult.exn constructor.
-/

/-- A JSON-like value, the shape of everything `response.json()` can
return in the source: dict, list, string, number, boolean, None.
Numbers are modelled as rationals (Python ints and floats). -/
inductive JVal where
  | null : JVal
  | bool (b : Bool) : JVal
  | num (q : Rat) : JVal
  | str (s : String) : JVal
  | arr (xs : List JVal) : JVal
  | obj (fs : List (String × JVal)) : JVal

/-- Python truthiness of a JSON value (`bool(v)`): None, False, 0, "",
[], {} are falsy, everything else truthy. -/
def pyTruthy : JVal → Bool
  | .null => false
  | .bool b => b
  | .num q => q != 0
  | .str s => s != ""
  | .arr xs => !xs.isEmpty
  | .obj fs => !fs.isEmpty

/-- First binding of a key in an association list (Python dict lookup;
JSON object keys are unique but we take the first match like Python's
parser, which keeps the last -- duplicate keys do not arise in the
claims, so first-match is an adequate embedding). -/
def jLookup : List (String × JVal) → String → Option JVal
  | [], _ => none
  | (k, v) :: rest, key => if k = key then some v else jLookup rest key

/-- Python subscript `v[k]` with a string key: yields the value for a
dict that has the key; every other case raises (KeyError on a dict
missing the key, TypeError on non-dicts) -- all of which the source
catches identically, so `none` models "raised one of the caught
exceptions". -/
def jget (v : JVal) (k : String) : Option JVal :=
  match v with
  | .obj fs => jLookup fs k
  | _ => none

/-- Python subscript `v[0]`: first element of a list (IndexError on an
empty list), first character of a string (IndexError on ""), KeyError
on a string-keyed dict, TypeError otherwise; `none` models all the
raising cases, which the source catches identically. -/
def jidx0 : JVal → Option JVal
  | .arr (x :: _) => some x
  | .str s =>
      match s.toList with
      | [] => none
      | c :: _ => some (.str (String.mk [c]))
  | _ => none

/-- Python `v / 100`: true division works for numbers and booleans
(bool is an int subtype) and raises TypeError otherwise, which the
source catches. -/
def pyDiv100 : JVal → Option Rat
  | .num q => some (q / 100)
  | .bool b => some ((if b then (1 : Rat) else 0) / 100)
  | _ => none

/-- Python `str(x)` on an Optional[str]: None prints as "None". -/
def pyStr : Option String → String
  | none => "None"
  | some s => s

/-- First maximal run of digits in a character list: the first element
of Python's re.findall of one-or-more digits over the string. -/
def firstDigitRunAux : List Char → List Char
  | [] => []
  | c :: cs =>
      if c.isDigit then c :: cs.takeWhile (fun d => d.isDigit)
      else firstDigitRunAux cs

/-- `numbers[0] if numbers else ''` where `numbers` is re.findall of
one-or-more digits over the string (zepto_scraper.py lines 143-145). -/
def firstDigitRun (s : String) : String :=
  String.mk (firstDigitRunAux s.toList)

/-- zepto_scraper.extract_sku_from_url:
`url.split('/')[-1].split('?')[0]`. -/
def extract_sku_from_url (url : String) : String :=
  (((url.splitOn "/").getLastD "").splitOn "?").headD ""

/-! ## Geocoder (zepto_scraper.get_city_from_pincode) -/

/-- Outcome of the one rate-limited Nominatim geocode call: the call
raised, returned no location, or returned a location whose address
component dict is the given string-valued association list (an absent
`address` key is the empty list, matching `raw.get("address", {})`). -/
inductive GeocodeOutcome where
  | raised (msg : String) : GeocodeOutcome
  | notFound : GeocodeOutcome
  | found (addr : List (String × String)) : GeocodeOutcome

/-- Python dict `.get` over the address components. -/
def addrLookup : List (String × String) → String → Option String
  | [], _ => none
  | (k, v) :: rest, key => if k = key then some v else addrLookup rest key

/-- The chained `or` over address fields: first key whose value is
present and truthy (a non-empty string) wins. -/
def firstTruthy (addr : List (String × String)) : List String → Option String
  | [] => none
  | k :: ks =>
      match addrLookup addr k with
      | some v => if v ≠ "" then some v else firstTruthy addr ks
      | none => firstTruthy addr ks

/-- Field-selection order of get_city_from_pincode (lines 46-54). -/
def geocodeKeys : List String :=
  ["city", "town", "suburb", "county", "state_district", "district", "state"]

/-- zepto_scraper.get_city_from_pincode: the whole geocode interaction
sits in a try/except Exception, so the function is total -- an
exception becomes the string "Error: e", a missing location
"Location not found", an address with no usable field
"City not found in address data". -/
def get_city_from_pincode : GeocodeOutcome → String
  | .raised msg => "Error: " ++ msg
  | .notFound => "Location not found"
  | .found addr =>
      match firstTruthy addr geocodeKeys with
      | some c => c
      | none => "City not found in address data"

/-! ## Retry loops (api_helpers.get_zepto_store_id, api_helpers.get_edt) -/

/-- One upstream HTTP interaction: the request raised a transport
error, or returned a status code and a body (`none` body = the JSON
parse raised). -/
structure HttpResp where
  raised : Bool
  status : Nat
  body : Option JVal

/-- Classification of one attempt of a retry loop: a failure the loop
retries, a success carrying the extracted value, or an uncaught
exception (AttributeError from calling `.get` on a non-dict value,
which sits outside every try block in the source). -/
inductive AttemptClass where
  | retryFail : AttemptClass
  | success (v : JVal) : AttemptClass
  | raise (msg : String) : AttemptClass

/-- api_helpers.get_zepto_store_id, classification of one attempt
(lines 72-105): transport error, non-200, unparseable JSON, a missing
or None 'storeServiceableResponse', and a missing or falsy 'storeId'
all continue the loop; a dict-valued serviceable response with a
truthy 'storeId' succeeds; `.get` on a non-dict raises. -/
def classifyStore (r : HttpResp) : AttemptClass :=
  if r.raised then .retryFail
  else if r.status ≠ 200 then .retryFail
  else
    match r.body with
    | none => .retryFail
    | some out =>
        match out with
        | .obj fs =>
            match jLookup fs "storeServiceableResponse" with
            | none => .retryFail
            | some .null => .retryFail
            | some (.obj fs2) =>
                match jLookup fs2 "storeId" with
                | none => .retryFail
                | some sid => if pyTruthy sid then .success sid else .retryFail
            | some _ => .raise "AttributeError"
        | _ => .raise "AttributeError"

/-- api_helpers.get_edt, classification of one attempt (lines
127-153): same loop shape against the eta-info endpoint; a missing or
falsy 'secondaryText' continues the loop, a truthy one succeeds. -/
def classifyEdt (r : HttpResp) : AttemptClass :=
  if r.raised then .retryFail
  else if r.status ≠ 200 then .retryFail
  else
    match r.body with
    | none => .retryFail
    | some out =>
        match out with
        | .obj fs =>
            match jLookup fs "secondaryText" with
            | none => .retryFail
            | some v => if pyTruthy v then .success v else .retryFail
        | _ => .raise "AttributeError"

/-- Trace record of one executed attempt of a retry loop: its 0-based
index, the identity generated for it (counter value consumed by its
get_fresh_headers call), and the sleep performed before its request
(`none` = no sleep). -/
structure AttemptRec where
  idx : Nat
  identity : Nat
  preDelay : Option Rat
deriving DecidableEq

/-- A Python computation that either returns or raises. -/
inductive PyResult (α : Type) where
  | ok (a : α) : PyResult α
  | exn (msg : String) : PyResult α

/-- The trace record of the attempt at 0-based index `attempt`: fresh
headers consume identity `ctr`; the sleep before every attempt after
the first is RETRY_DELAY * (attempt + 1) (api_helpers.py lines 68-71
and 123-126). -/
def attemptOutcome (base : Rat) (attempt ctr : Nat) : AttemptRec :=
  ⟨attempt, ctr,
   if attempt = 0 then none else some (base * ((attempt : Rat) + 1))⟩

/-- One iteration body of the shared retry loop: on success or an
uncaught exception the loop stops with a one-attempt trace; on a
retryable failure it stops with None when no attempts remain
(`fuel = 0`, the `attempt < max_retries - 1` guard failing), otherwise
it continues with `cont`, the run of the remaining attempts. -/
def retryStep (classify : Nat → AttemptClass) (base : Rat)
    (fuel attempt ctr : Nat)
    (cont : PyResult (Option JVal) × List AttemptRec) :
    PyResult (Option JVal) × List AttemptRec :=
  let rec0 := attemptOutcome base attempt ctr
  match classify attempt with
  | .success v => (.ok (some v), [rec0])
  | .raise m => (.exn m, [rec0])
  | .retryFail =>
      match fuel with
      | 0 => (.ok none, [rec0])
      | _ + 1 => (cont.1, rec0 :: cont.2)

/-- The shared retry loop of get_zepto_store_id and get_edt
(api_helpers.py lines 58-106 and 113-154, identical shape):
`for attempt in range(max_retries)`, generating fresh headers each
iteration, sleeping RETRY_DELAY * (attempt + 1) before every attempt
after the first, continuing on a retryable failure unless the attempt
is the last, and returning None when the budget is exhausted.  `fuel`
is the number of attempts remaining (initially max_retries), `attempt`
the 0-based index of the current attempt, `ctr` the identity counter.
Returns the loop's result together with the trace of executed
attempts. -/
def retryGo (classify : Nat → AttemptClass) (base : Rat) :
    Nat → Nat → Nat → PyResult (Option JVal) × List AttemptRec
  | 0, _, _ => (.ok none, [])
  | fuel + 1, attempt, ctr =>
      retryStep classify base fuel attempt ctr
        (retryGo classify base fuel (attempt + 1) (ctr + 1))

/-- api_helpers.get_zepto_store_id: `env i` is the HTTP outcome of
attempt `i`, `base` is config.RETRY_DELAY, `ctr` the identity counter
on entry; the source's default attempt budget is 1. -/
def get_zepto_store_id (env : Nat → HttpResp) (base : Rat) (ctr : Nat)
    (max_retries : Nat := 1) : PyResult (Option JVal) × List AttemptRec :=
  retryGo (fun i => classifyStore (env i)) base max_retries 0 ctr

/-- api_helpers.get_edt: same loop against the eta-info endpoint; the
source's default attempt budget is 2. -/
def get_edt (env : Nat → HttpResp) (base : Rat) (ctr : Nat)
    (max_retries : Nat := 2) : PyResult (Option JVal) × List AttemptRec :=
  retryGo (fun i => classifyEdt (env i)) base max_retries 0 ctr

/-! ## Coordinate resolver (api_helpers.get_lat_long_zepto) -/

/-- Environment for get_lat_long_zepto: outcome of the place-id
extraction from the autocomplete call (`none` = any exception, caught)
and of the lat/lng extraction from the details call.  Coordinates are
modelled as rationals. -/
structure GeoEnv where
  autocomplete : Option String
  details : Option (Rat × Rat)

/-- One outbound API call together with the identity its headers
carried. -/
structure ApiCall where
  endpoint : String
  identity : Nat
deriving DecidableEq

/-- api_helpers.get_lat_long_zepto (lines 16-50): get_fresh_headers is
called exactly once, at the top, consuming one identity `ctr`; the
same `headers` object is passed to both the autocomplete request and
the details request.  Each extraction failure is caught and yields
(None, None); the details call is only made when the autocomplete call
produced a place id. -/
def get_lat_long_zepto (env : GeoEnv) (ctr : Nat) :
    Option (Rat × Rat) × List ApiCall :=
  let ident := ctr
  match env.autocomplete with
  | none => (none, [⟨"autocomplete", ident⟩])
  | some _ =>
      match env.details with
      | none => (none, [⟨"autocomplete", ident⟩, ⟨"details", ident⟩])
      | some ll => (some ll, [⟨"autocomplete", ident⟩, ⟨"details", ident⟩])

/-! ## Store lookup for a pincode (zepto_scraper.get_store_id_for_pincode) -/

/-- zepto_scraper.get_store_id_for_pincode (lines 67-81).  `latlng` is
what get_lat_long_zepto returned, `storeOracle` what get_zepto_store_id
would return if invoked.  The Boolean in the result records whether the
store resolver was invoked at all.  The source's guard is
`if not lat or not lng`, i.e. Python value truthiness: None and the
float 0.0 both fail it; likewise `if not store_id` treats an empty
string as failure. -/
def get_store_id_for_pincode (latlng : Option (Rat × Rat))
    (storeOracle : Option String) :
    (Option String × Option Rat × Option Rat) × Bool :=
  match latlng with
  | none => ((none, none, none), false)
  | some (lat, lng) =>
      if lat = 0 || lng = 0 then ((none, none, none), false)
      else
        match storeOracle with
        | none => ((none, none, none), true)
        | some sid =>
            if sid = "" then ((none, none, none), true)
            else ((some sid, some lat, some lng), true)

/-! ## Product detail fetcher (zepto_scraper.scrape_product) -/

/-- A price field of the product record: a number (minor units / 100)
or the empty string Python default. -/
inductive PriceVal where
  | num (q : Rat) : PriceVal
  | empty : PriceVal

/-- The pd.Series returned by scrape_product (its exact key set).  The
source also computes brand, a canonical URL and a pack size, but never
puts them in the returned Series, so they are not part of the record.
`title` is a JVal because the catalog's product name is stored without
conversion (it need not be a string). -/
structure ProductRecord where
  source_date : String
  platform : String
  f_brand : String
  city : String
  sku : String
  pincode : String
  title : JVal
  mrp : PriceVal
  live_price : PriceVal
  is_available : String
  edt : String

/-- Outcome of the catalog product-detail request: the request (or
anything else inside the try) raised, or a response with a status code
and body (`none` body = `response.json()` raised; only reached on
status 200). -/
inductive CatalogOutcome where
  | raised : CatalogOutcome
  | resp (status : Nat) (body : Option JVal) : CatalogOutcome

/-- Outcome of the get_edt call as observed by its caller: either the
function returned (an optional estimate -- None after any handled
failure or an exhausted budget), or it raised.  The raising path is
real: `out.get('secondaryText')` (api_helpers.py line 146) sits
outside every try block, so a 200 response whose valid JSON body is
not a dict raises an uncaught AttributeError out of get_edt -- the
same raise classifyEdt models inside the resolver. -/
inductive EdtOutcome where
  | raised (msg : String) : EdtOutcome
  | returned (est : Option String) : EdtOutcome

/-- Environment of one scrape_product run: the outcomes of its
effectful sub-steps.  `city` is what get_city_from_pincode returned
(a total function, see above); `scraped_title` what
scrape_product_title returned ("" on any failure); `latlng` what
get_lat_long_zepto returned; `storeResolved` what get_zepto_store_id
would return if invoked; `edt_raw` the outcome of the get_edt call if
invoked -- including its uncaught-AttributeError path, which matters
because the call site (zepto_scraper.py line 142) precedes
scrape_product's try (line 184), so that exception escapes the fetch;
`catalog` the catalog request's outcome. -/
structure ScrapeEnv where
  source_date : String
  pdp_url : String
  pincode : String
  city : String
  scraped_title : String
  latlng : Option (Rat × Rat)
  storeResolved : Option String
  edt_raw : EdtOutcome
  catalog : CatalogOutcome

/-- `data['product']['storeProducts'][0]` (shared prefix of the four
pricing/availability traversals, each independently wrapped in its own
try in the source). -/
def storeProducts0 (data : JVal) : Option JVal :=
  ((jget data "product").bind (fun p => jget p "storeProducts")).bind jidx0

/-- Title selection (lines 219-225): the scraped HTML title when
truthy, else `data['product']['name']` (any JSON value, stored as-is),
else the string "Unknown" when that traversal raises. -/
def titleOf (data : JVal) (scraped_title : String) : JVal :=
  if scraped_title ≠ "" then .str scraped_title
  else
    match (jget data "product").bind (fun p => jget p "name") with
    | some v => v
    | none => .str "Unknown"

/-- `data['product']['storeProducts'][0]['productVariant']['mrp']`. -/
def mrpRaw (data : JVal) : Option JVal :=
  ((storeProducts0 data).bind (fun sp => jget sp "productVariant")).bind
    (fun pv => jget pv "mrp")

/-- `data['product']['storeProducts'][0]['discountedSellingPrice']`. -/
def dspRaw (data : JVal) : Option JVal :=
  (storeProducts0 data).bind (fun sp => jget sp "discountedSellingPrice")

/-- `data['product']['storeProducts'][0]['sellingPrice']`. -/
def spRaw (data : JVal) : Option JVal :=
  (storeProducts0 data).bind (fun sp => jget sp "sellingPrice")

/-- MRP extraction (lines 239-242): the traversal divided by 100, or
'' when any step raises one of the caught exceptions. -/
def mrpOf (data : JVal) : PriceVal :=
  match (mrpRaw data).bind pyDiv100 with
  | some q => .num q
  | none => .empty

/-- Live-price extraction (lines 244-250): discounted selling price
over 100; on failure the plain selling price over 100; on failure ''. -/
def live_priceOf (data : JVal) : PriceVal :=
  match (dspRaw data).bind pyDiv100 with
  | some q => .num q
  | none =>
      match (spRaw data).bind pyDiv100 with
      | some q => .num q
      | none => .empty

/-- `data['product']['storeProducts'][0]['outOfStock']`. -/
def outOfStockOf (data : JVal) : Option JVal :=
  (storeProducts0 data).bind (fun sp => jget sp "outOfStock")

/-- Availability extraction (lines 252-255):
`'Yes' if not .. ['outOfStock'] else 'No'`, 'Unknown' when the
traversal raises.  The branch is Python truthiness of the extracted
value, not a boolean test. -/
def availabilityOf (data : JVal) : String :=
  match outOfStockOf data with
  | some v => if pyTruthy v then "No" else "Yes"
  | none => "Unknown"

/-- The 404 sentinel record (lines 197-209). -/
def sentinelRecord (env : ScrapeEnv) (edt : String) : ProductRecord :=
  { source_date := env.source_date, platform := "zepto", f_brand := "origami"
    city := env.city, sku := extract_sku_from_url env.pdp_url
    pincode := env.pincode, title := .str "Item Not Found"
    mrp := .empty, live_price := .empty
    is_available := "Item Not Found", edt := edt }

/-- The 200 record (lines 262-274). -/
def okRecord (env : ScrapeEnv) (data : JVal) (edt : String) : ProductRecord :=
  { source_date := env.source_date, platform := "zepto", f_brand := "origami"
    city := env.city, sku := extract_sku_from_url env.pdp_url
    pincode := env.pincode, title := titleOf data env.scraped_title
    mrp := mrpOf data, live_price := live_priceOf data
    is_available := availabilityOf data, edt := edt }

/-- The 200 path's body handling (lines 215, 262-274): an unparseable
body is caught by the outer except and yields None, otherwise the
record is built field by field. -/
def bodyToRecord (env : ScrapeEnv) (edt : String) :
    Option JVal → Option ProductRecord
  | none => none
  | some data => some (okRecord env data edt)

/-- Classification of the catalog response (lines 184-281): a raised
request (or any other exception inside the try) is caught and yields
None; 404 yields the sentinel record; any other non-200 yields None; a
200 is handled by bodyToRecord. -/
def catalogToRecord (env : ScrapeEnv) (edt : String) :
    CatalogOutcome → Option ProductRecord
  | .raised => none
  | .resp status body =>
      if status = 404 then some (sentinelRecord env edt)
      else if status ≠ 200 then none
      else bodyToRecord env edt body

/-- The part of scrape_product after the EDT call returned `est`
(lines 143-281): derive the numeric EDT from the raw estimate (str of
None is "None" when the resolver produced nothing), then classify the
catalog response. -/
def scrapeWithStore (env : ScrapeEnv) (est : Option String) :
    Option ProductRecord :=
  catalogToRecord env (firstDigitRun (pyStr est)) env.catalog

/-- zepto_scraper.scrape_product (lines 116-281): city, SKU and
scraped title are computed unconditionally (all total); then the store
lookup -- a falsy store id (None from get_store_id_for_pincode, or an
empty string, re-checked by `if not store_id` on line 135) aborts with
None; then the EDT lookup at line 142, which precedes the try at line
184, so that when get_edt raises its uncaught AttributeError the whole
fetch raises with no record; then the catalog call. -/
def scrape_product (env : ScrapeEnv) : PyResult (Option ProductRecord) :=
  match (get_store_id_for_pincode env.latlng env.storeResolved).1 with
  | (some store_id, _, _) =>
      if store_id = "" then .ok none
      else
        match env.edt_raw with
        | .raised m => .exn m
        | .returned est => .ok (scrapeWithStore env est)
  | (none, _, _) => .ok none

/-- The record of a fetch outcome that returned one (None when the
fetch returned None or raised). -/
def fetchRecord : PyResult (Option ProductRecord) → Option ProductRecord
  | .ok r => r
  | .exn _ => none

/-- True when the store lookup of scrape_product succeeds (the record
path is reachable). -/
def storeOK (env : ScrapeEnv) : Bool :=
  match (get_store_id_for_pincode env.latlng env.storeResolved).1 with
  | (some store_id, _, _) => store_id != ""
  | (none, _, _) => false

/-- True when the catalog interaction alone dooms the fetch: a raised
request, a non-200 non-404 status, or a 200 whose body fails to
parse. -/
def catalogFails (env : ScrapeEnv) : Bool :=
  match env.catalog with
  | .raised => true
  | .resp status body =>
      if status = 404 then false
      else if status ≠ 200 then true
      else body.isNone

/-! ## Orchestrator and batch runner (flow_zepto.py) -/

/-- The dict flow_zepto.scrape_task returns: the status tag, the url
and pincode keys it adds, and the record payload merged in on
success. -/
structure Payload where
  status : String
  url : String
  pincode : String
  record : Option ProductRecord

/-- The failure payload of scrape_task (line 19). -/
def failedPayload (u p : String) : Payload :=
  ⟨"failed", u, p, none⟩

/-- The success payload of scrape_task (lines 21-29). -/
def successPayload (r : ProductRecord) (u p : String) : Payload :=
  ⟨"success", u, p, some r⟩

/-- flow_zepto.scrape_task (lines 15-29) as a function of the outcome
of its scrape_product call.  The task body contains no try/except: an
exception raised by scrape_product propagates out of the task
unchanged; a None return becomes the tagged failed payload; a record
becomes the tagged success payload. -/
def scrape_task (u p : String) (fetch : PyResult (Option ProductRecord)) :
    PyResult Payload :=
  match fetch with
  | .exn m => .exn m
  | .ok none => .ok (failedPayload u p)
  | .ok (some r) => .ok (successPayload r u p)

/-- Structural worker for `chunked`, chunk size m + 1: `fuel` is an
upper bound on the number of elements left (invariantly the current
list's length, which strictly decreases every chunk), making the
recursion structural and hence kernel-computable. -/
def chunkedGo {α : Type} (m : Nat) : Nat → List α → List (List α)
  | _, [] => []
  | 0, _ :: _ => []
  | fuel + 1, x :: rest => (x :: rest.take m) :: chunkedGo m fuel (rest.drop m)

/-- flow_zepto.chunked (lines 10-12): consecutive slices of the given
size, preserving order.  Python's range raises ValueError on a zero
step; run_batch guards that case before this function is consulted
with a non-empty list. -/
def chunked {α : Type} (xs : List α) (n : Nat) : List (List α) :=
  match n with
  | 0 => []
  | m + 1 => chunkedGo m xs.length xs

/-- The batch summary dict of flow_zepto.run_batch. -/
structure Summary where
  total : Nat
  success : Nat
  failed : Nat

/-- run_batch's per-future counting (lines 49-57): a returned dict
whose status is "success" counts as success, anything else -- including
an exception raised by future.result(), caught by the surrounding
try/except -- counts as failed. -/
def countOutcome : PyResult Payload → Bool
  | .ok p => p.status == "success"
  | .exn _ => false

/-- Fold one chunk's futures into the running (success, failed)
counts. -/
def countChunk (acc : Nat × Nat) (chunk : List (PyResult Payload)) :
    Nat × Nat :=
  chunk.foldl
    (fun a t => if countOutcome t then (a.1 + 1, a.2) else (a.1, a.2 + 1))
    acc

/-- flow_zepto.run_batch (lines 32-68) as a function of the per-item
terminal task outcomes (one per input item, in submission order; the
counting never reads the items themselves, only the outcomes).  An
empty input short-circuits to all-zero counts before any chunking or
submission; a zero chunk size with a non-empty input raises ValueError
inside Python's range.  The Nat in the result is the number of task
submissions performed. -/
def run_batch (tasks : List (PyResult Payload)) (chunk_size : Nat) :
    PyResult (Summary × Nat) :=
  if tasks.length = 0 then .ok (⟨0, 0, 0⟩, 0)
  else if chunk_size = 0 then .exn "ValueError"
  else
    let chunks := chunked tasks chunk_size
    let counts := chunks.foldl countChunk (0, 0)
    .ok (⟨tasks.length, counts.1, counts.2⟩, (chunks.map List.length).sum)
/-! ## Helper lemmas -/

theorem scrape_product_reached (env : ScrapeEnv) (est : Option String)
    (h : storeOK env = true) (he : env.edt_raw = EdtOutcome.returned est) :
    scrape_product env = PyResult.ok (scrapeWithStore env est) := by
  unfold storeOK at h
  unfold scrape_product
  rcases hg : (get_store_id_for_pincode env.latlng env.storeResolved).1 with
    ⟨sid?, la, lo⟩
  rcases sid? with _ | sid
  · rw [hg] at h; simp at h
  · rw [hg] at h
    simp only [bne_iff_ne, ne_eq] at h
    simp [h, he]

theorem scrape_product_raised (env : ScrapeEnv) (m : String)
    (h : storeOK env = true) (he : env.edt_raw = EdtOutcome.raised m) :
    scrape_product env = PyResult.exn m := by
  unfold storeOK at h
  unfold scrape_product
  rcases hg : (get_store_id_for_pincode env.latlng env.storeResolved).1 with
    ⟨sid?, la, lo⟩
  rcases sid? with _ | sid
  · rw [hg] at h; simp at h
  · rw [hg] at h
    simp only [bne_iff_ne, ne_eq] at h
    simp [h, he]

theorem retryGo_map_identity (classify : Nat → AttemptClass) (base : Rat) :
    ∀ fuel attempt ctr,
      ((retryGo classify base fuel attempt ctr).2).map AttemptRec.identity
        = List.range' ctr ((retryGo classify base fuel attempt ctr).2).length
  | 0, _, _ => by simp [retryGo]
  | fuel + 1, attempt, ctr => by
      simp only [retryGo, retryStep]
      cases hc : classify attempt with
      | success v => simp [attemptOutcome]
      | raise m => simp [attemptOutcome]
      | retryFail =>
          cases fuel with
          | zero => simp [attemptOutcome]
          | succ f =>
              have ih := retryGo_map_identity classify base (f + 1) (attempt + 1)
                (ctr + 1)
              simp [attemptOutcome, ih, List.range'_succ]

theorem retryGo_map_idx (classify : Nat → AttemptClass) (base : Rat) :
    ∀ fuel attempt ctr,
      ((retryGo classify base fuel attempt ctr).2).map AttemptRec.idx
        = List.range' attempt ((retryGo classify base fuel attempt ctr).2).length
  | 0, _, _ => by simp [retryGo]
  | fuel + 1, attempt, ctr => by
      simp only [retryGo, retryStep]
      cases hc : classify attempt with
      | success v => simp [attemptOutcome]
      | raise m => simp [attemptOutcome]
      | retryFail =>
          cases fuel with
          | zero => simp [attemptOutcome]
          | succ f =>
              have ih := retryGo_map_idx classify base (f + 1) (attempt + 1)
                (ctr + 1)
              simp [attemptOutcome, ih, List.range'_succ]

theorem retryGo_preDelay (classify : Nat → AttemptClass) (base : Rat) :
    ∀ fuel attempt ctr, ∀ r ∈ (retryGo classify base fuel attempt ctr).2,
      r.preDelay = if r.idx = 0 then none
                   else some (base * ((r.idx : Rat) + 1))
  | 0, _, _ => by simp [retryGo]
  | fuel + 1, attempt, ctr => by
      intro r hr
      simp only [retryGo, retryStep] at hr
      cases hc : classify attempt with
      | success v =>
          rw [hc] at hr
          simp only [List.mem_singleton] at hr
          subst hr; rfl
      | raise m =>
          rw [hc] at hr
          simp only [List.mem_singleton] at hr
          subst hr; rfl
      | retryFail =>
          rw [hc] at hr
          cases fuel with
          | zero =>
              simp only [List.mem_singleton] at hr
              subst hr; rfl
          | succ f =>
              simp only [List.mem_cons] at hr
              rcases hr with hr | hr
              · subst hr; rfl
              · exact retryGo_preDelay classify base (f + 1) (attempt + 1)
                  (ctr + 1) r hr

theorem countChunk_sum (chunk : List (PyResult Payload)) :
    ∀ a b : Nat, (countChunk (a, b) chunk).1 + (countChunk (a, b) chunk).2
      = a + b + chunk.length := by
  induction chunk with
  | nil => intro a b; simp [countChunk]
  | cons t rest ih =>
      intro a b
      simp only [countChunk, List.foldl_cons, List.length_cons] at ih ⊢
      by_cases hco : countOutcome t = true
      · rw [if_pos hco]
        have h2 := ih (a + 1) b
        omega
      · rw [if_neg hco]
        have h2 := ih a (b + 1)
        omega

theorem chunked_of_le {α : Type} (x : α) (rest : List α) (n : Nat)
    (h : (x :: rest).length ≤ n) : chunked (x :: rest) n = [x :: rest] := by
  rw [List.length_cons] at h
  cases n with
  | zero => omega
  | succ m =>
      have h1 : rest.length ≤ m := by omega
      have htake : rest.take m = rest := List.take_of_length_le h1
      have hdrop : rest.drop m = [] := List.drop_eq_nil_of_le h1
      simp only [chunked, List.length_cons, chunkedGo]
      rw [htake, hdrop]
      simp [chunkedGo]

theorem scrapeWithStore_none_iff (env : ScrapeEnv) (est : Option String) :
    scrapeWithStore env est = none ↔ catalogFails env = true := by
  unfold scrapeWithStore catalogFails
  cases env.catalog with
  | raised => simp [catalogToRecord]
  | resp status body =>
      by_cases h404 : status = 404
      · simp [catalogToRecord, h404]
      · by_cases h200 : status = 200
        · subst h200
          simp only [catalogToRecord, h404, if_false]
          cases body <;> simp [bodyToRecord]
        · simp [catalogToRecord, h404, h200]

theorem scrapeWithStore_edt (env : ScrapeEnv) (est : Option String)
    (r : ProductRecord) (h : scrapeWithStore env est = some r) :
    r.edt = firstDigitRun (pyStr est) := by
  unfold scrapeWithStore at h
  cases hcat : env.catalog with
  | raised => rw [hcat] at h; simp [catalogToRecord] at h
  | resp status body =>
      rw [hcat] at h
      by_cases h404 : status = 404
      · rw [catalogToRecord, if_pos h404] at h
        injection h with h'
        rw [← h']
        rfl
      · rw [catalogToRecord, if_neg h404] at h
        by_cases h200 : status = 200
        · rw [if_neg (by simp [h200])] at h
          cases body with
          | none => simp [bodyToRecord] at h
          | some data =>
              rw [bodyToRecord] at h
              injection h with h'
              rw [← h']
              rfl
        · rw [if_pos h200] at h
          cases h

theorem firstDigitRun_pyStr_none : firstDigitRun (pyStr none) = "" := rfl


/-! ## Concrete fixtures for witnesses and counterexamples -/

/-- A store-resolved environment whose catalog call returned 404. -/
def env404 : ScrapeEnv :=
  { source_date := "05-10-2026"
    pdp_url := "https://www.zepto.com/pn/item/pvid/sku-1"
    pincode := "500001", city := "Hyderabad", scraped_title := ""
    latlng := some (17, 78), storeResolved := some "store-1"
    edt_raw := .returned none, catalog := .resp 404 none }

/-- A 200 body whose outOfStock field is present but malformed: the
JSON string "false" instead of a boolean. -/
def dataStockString : JVal :=
  .obj [("product", .obj [("storeProducts",
    .arr [.obj [("outOfStock", .str "false")]])])]

/-- Store-resolved environment delivering dataStockString. -/
def envStockString : ScrapeEnv :=
  { source_date := "05-10-2026"
    pdp_url := "https://www.zepto.com/pn/item/pvid/sku-1"
    pincode := "500001", city := "Hyderabad", scraped_title := ""
    latlng := some (17, 78), storeResolved := some "store-1"
    edt_raw := .returned (some "10 mins")
    catalog := .resp 200 (some dataStockString) }

/-- A 200 body with a boolean outOfStock = true. -/
def dataOutOfStockTrue : JVal :=
  .obj [("product", .obj [("storeProducts",
    .arr [.obj [("outOfStock", .bool true)]])])]

/-- Store-resolved environment delivering dataOutOfStockTrue. -/
def envOutOfStockTrue : ScrapeEnv :=
  { source_date := "05-10-2026"
    pdp_url := "https://www.zepto.com/pn/item/pvid/sku-1"
    pincode := "500001", city := "Hyderabad", scraped_title := ""
    latlng := some (17, 78), storeResolved := some "store-1"
    edt_raw := .returned (some "10 mins")
    catalog := .resp 200 (some dataOutOfStockTrue) }

/-! ## C1 -/

/-- C1: for every catalog product-detail response reached by
scrape_product (the store lookup having succeeded and the EDT call
having returned rather than raised -- together these say exactly that
the catalog request was issued and answered), an HTTP 404 always
yields the sentinel record with title and is_available both
"Item Not Found" -- never None -- and every other non-200 status always
yields None, regardless of the ETA and scraped-title outcomes (the
environment is otherwise arbitrary). -/
theorem C1_catalog_status_classification (env : ScrapeEnv)
    (est : Option String) (hs : storeOK env = true)
    (he : env.edt_raw = EdtOutcome.returned est) :
    (∀ body, env.catalog = CatalogOutcome.resp 404 body →
      ∃ r, scrape_product env = PyResult.ok (some r) ∧
        r.title = JVal.str "Item Not Found" ∧
        r.is_available = "Item Not Found") ∧
    (∀ status body, env.catalog = CatalogOutcome.resp status body →
      status ≠ 404 → status ≠ 200 →
      scrape_product env = PyResult.ok none) := by
  rw [scrape_product_reached env est hs he]
  constructor
  · intro body hc
    refine ⟨sentinelRecord env (firstDigitRun (pyStr est)), ?_, rfl, rfl⟩
    have hw : scrapeWithStore env est
        = some (sentinelRecord env (firstDigitRun (pyStr est))) := by
      unfold scrapeWithStore
      rw [hc, catalogToRecord, if_pos rfl]
    rw [hw]
  · intro status body hc h404 h200
    have hw : scrapeWithStore env est = none := by
      unfold scrapeWithStore
      rw [hc, catalogToRecord, if_neg h404, if_pos h200]
    rw [hw]

/-- C1 witness: the concrete 404 environment env404 produces the
sentinel record. -/
theorem C1_catalog_status_classification_witness :
    (fetchRecord (scrape_product env404)).map ProductRecord.title
      = some (JVal.str "Item Not Found") ∧
    (fetchRecord (scrape_product env404)).map ProductRecord.is_available
      = some "Item Not Found" := by
  obtain ⟨r, hr, ht, ha⟩ :=
    (C1_catalog_status_classification env404 none (by decide) rfl).1 none rfl
  rw [hr]
  exact ⟨by show some r.title = _; rw [ht],
         by show some r.is_available = _; rw [ha]⟩

/-! ## C2 -/

/-- C2 (counterexample): a 200 response whose outOfStock field is
present but malformed -- the JSON string "false" instead of a boolean.
The claim requires is_available = "Unknown" for a malformed stock
field; the code classifies the value by Python truthiness and produces
the confirmed-out-of-stock answer "No". -/
theorem C2_counterexample :
    (fetchRecord (scrape_product envStockString)).map
      ProductRecord.is_available = some "No" := rfl

/-- C2 (amended): on a 200 response, is_available is "No" when the
traversed outOfStock value is truthy and "Yes" when it is falsy -- so
boolean true yields "No" and boolean false yields "Yes" as claimed --
while "Unknown" arises exactly when the traversal to the field raises
(missing key, empty storeProducts, wrong container shape); a present
but malformed stock value is classified by its truthiness (e.g. the
string "false" yields "No", null yields "Yes"), not mapped to
"Unknown". -/
theorem C2_availability_truthiness (env : ScrapeEnv) (data : JVal)
    (est : Option String) (hs : storeOK env = true)
    (he : env.edt_raw = EdtOutcome.returned est)
    (hc : env.catalog = CatalogOutcome.resp 200 (some data)) :
    ∃ r, scrape_product env = PyResult.ok (some r) ∧
      r.is_available =
        (match outOfStockOf data with
         | some v => if pyTruthy v then "No" else "Yes"
         | none => "Unknown") ∧
      (outOfStockOf data = some (JVal.bool true) → r.is_available = "No") ∧
      (outOfStockOf data = some (JVal.bool false) → r.is_available = "Yes") ∧
      (outOfStockOf data = none → r.is_available = "Unknown") := by
  rw [scrape_product_reached env est hs he]
  refine ⟨okRecord env data (firstDigitRun (pyStr est)),
    ?_, rfl, ?_, ?_, ?_⟩
  · have hw : scrapeWithStore env est
        = some (okRecord env data (firstDigitRun (pyStr est))) := by
      unfold scrapeWithStore
      rw [hc, catalogToRecord, if_neg (by decide), if_neg (by decide),
        bodyToRecord]
    rw [hw]
  · intro h; simp [okRecord, availabilityOf, h, pyTruthy]
  · intro h; simp [okRecord, availabilityOf, h, pyTruthy]
  · intro h; simp [okRecord, availabilityOf, h]

/-- C2 witness: a boolean outOfStock = true yields "No" on the
concrete environment envOutOfStockTrue. -/
theorem C2_availability_truthiness_witness :
    (fetchRecord (scrape_product envOutOfStockTrue)).map
      ProductRecord.is_available = some "No" := by
  obtain ⟨r, hr, _, hno, _, _⟩ :=
    C2_availability_truthiness envOutOfStockTrue dataOutOfStockTrue
      (some "10 mins") (by decide) rfl rfl
  rw [hr]
  show some r.is_available = _
  rw [hno rfl]

/-! ## C7 -/

/-- A 200 body with minor-unit prices: discounted 12550, plain 14000,
mrp 15000. -/
def dataPrices : JVal :=
  .obj [("product", .obj [("storeProducts",
    .arr [.obj [("discountedSellingPrice", .num 12550),
                ("sellingPrice", .num 14000),
                ("productVariant", .obj [("mrp", .num 15000)]),
                ("outOfStock", .bool false)]])])]

/-- Store-resolved environment delivering dataPrices. -/
def envPrices : ScrapeEnv :=
  { source_date := "05-10-2026"
    pdp_url := "https://www.zepto.com/pn/item/pvid/sku-1"
    pincode := "500001", city := "Hyderabad", scraped_title := ""
    latlng := some (17, 78), storeResolved := some "store-1"
    edt_raw := .returned (some "10 mins")
    catalog := .resp 200 (some dataPrices) }

/-- C7: on a 200 response, a numeric discountedSellingPrice q makes
live_price q / 100; when the discounted traversal yields no usable
number the plain sellingPrice q makes live_price q / 100; when neither
yields a number live_price is the empty value; a numeric mrp q makes
mrp q / 100 and mrp is empty when its traversal yields no number. -/
theorem C7_price_minor_units (env : ScrapeEnv) (data : JVal)
    (est : Option String) (hs : storeOK env = true)
    (he : env.edt_raw = EdtOutcome.returned est)
    (hc : env.catalog = CatalogOutcome.resp 200 (some data)) :
    ∃ r, scrape_product env = PyResult.ok (some r) ∧
      (∀ q : Rat, dspRaw data = some (JVal.num q) →
        r.live_price = PriceVal.num (q / 100)) ∧
      ((dspRaw data).bind pyDiv100 = none →
        ∀ q : Rat, spRaw data = some (JVal.num q) →
          r.live_price = PriceVal.num (q / 100)) ∧
      ((dspRaw data).bind pyDiv100 = none →
        (spRaw data).bind pyDiv100 = none →
        r.live_price = PriceVal.empty) ∧
      (∀ q : Rat, mrpRaw data = some (JVal.num q) →
        r.mrp = PriceVal.num (q / 100)) ∧
      ((mrpRaw data).bind pyDiv100 = none → r.mrp = PriceVal.empty) := by
  rw [scrape_product_reached env est hs he]
  refine ⟨okRecord env data (firstDigitRun (pyStr est)),
    ?_, ?_, ?_, ?_, ?_, ?_⟩
  · have hw : scrapeWithStore env est
        = some (okRecord env data (firstDigitRun (pyStr est))) := by
      unfold scrapeWithStore
      rw [hc, catalogToRecord, if_neg (by decide), if_neg (by decide),
        bodyToRecord]
    rw [hw]
  · intro q hq; simp [okRecord, live_priceOf, hq, pyDiv100]
  · intro hd q hq
    simp only [okRecord, live_priceOf, hd]
    simp [hq, pyDiv100]
  · intro hd hsp; simp [okRecord, live_priceOf, hd, hsp]
  · intro q hq; simp [okRecord, mrpOf, hq, pyDiv100]
  · intro hm; simp [okRecord, mrpOf, hm]

/-- C7 witness: minor units 12550 yield the live price 125.50 (the
rational 251/2) and mrp 15000 yields 150, on envPrices. -/
theorem C7_price_minor_units_witness :
    (fetchRecord (scrape_product envPrices)).map ProductRecord.live_price
      = some (PriceVal.num (251 / 2)) ∧
    (fetchRecord (scrape_product envPrices)).map ProductRecord.mrp
      = some (PriceVal.num 150) := by
  obtain ⟨r, hr, h1, _, _, h4, _⟩ :=
    C7_price_minor_units envPrices dataPrices (some "10 mins")
      (by decide) rfl rfl
  have hl := h1 12550 rfl
  have hm := h4 15000 rfl
  have e1 : (12550 : Rat) / 100 = 251 / 2 := by norm_num
  have e2 : (15000 : Rat) / 100 = 150 := by norm_num
  rw [hr]
  constructor
  · show some r.live_price = _
    rw [hl, e1]
  · show some r.mrp = _
    rw [hm, e2]

/-! ## C8 -/

/-- Store-resolved environment with no ETA and a failing catalog
call (HTTP 500). -/
def envEdtNoneBadCatalog : ScrapeEnv :=
  { source_date := "05-10-2026"
    pdp_url := "https://www.zepto.com/pn/item/pvid/sku-1"
    pincode := "500001", city := "Hyderabad", scraped_title := ""
    latlng := some (17, 78), storeResolved := some "store-1"
    edt_raw := .returned none, catalog := .resp 500 none }

/-- Store-resolved environment with no ETA and a successful catalog
call (empty JSON object body). -/
def envEdtNoneOkCatalog : ScrapeEnv :=
  { source_date := "05-10-2026"
    pdp_url := "https://www.zepto.com/pn/item/pvid/sku-1"
    pincode := "500001", city := "Hyderabad", scraped_title := ""
    latlng := some (17, 78), storeResolved := some "store-1"
    edt_raw := .returned none, catalog := .resp 200 (some (.obj [])) }

/-- Store-resolved environment whose EDT call raised the uncaught
AttributeError of api_helpers.py line 146. -/
def envEdtRaise : ScrapeEnv :=
  { source_date := "05-10-2026"
    pdp_url := "https://www.zepto.com/pn/item/pvid/sku-1"
    pincode := "500001", city := "Hyderabad", scraped_title := ""
    latlng := some (17, 78), storeResolved := some "store-1"
    edt_raw := .raised "AttributeError"
    catalog := .resp 200 (some (.obj [])) }

/-- C8 (counterexample): one ETA-lookup failure mode does fail the
fetch.  In get_edt the extraction `out.get('secondaryText')`
(api_helpers.py line 146) sits outside every try block, so a 200
response whose valid JSON body is not a dict (here an empty list)
raises an uncaught AttributeError out of the resolver -- the first
conjunct runs the get_edt model on that body and obtains the raise.
The get_edt call site (zepto_scraper.py line 142) precedes
scrape_product's try (line 184), so the exception escapes the fetch
with no record constructed -- the second conjunct: scrape_product, at
an environment whose store resolved and whose catalog call would have
succeeded, raises instead of producing any record, refuting the claim
that an ETA-lookup failure never causes the product fetch to fail. -/
theorem C8_counterexample :
    (get_edt (fun _ => ⟨false, 200, some (.arr [])⟩) 3 0 2).1
      = PyResult.exn "AttributeError" ∧
    scrape_product envEdtRaise = PyResult.exn "AttributeError" :=
  ⟨rfl, rfl⟩

/-- C8 (amended): once a store has been resolved, every ETA failure
that get_edt handles by returning None (transport error, non-200
status, unparseable body, missing or falsy estimate, exhausted budget)
never fails the fetch: the result is None exactly when the catalog
interaction fails, and any record built carries the empty edt string;
in general a returned raw estimate contributes its first digit run to
the record.  The one ETA failure get_edt does not handle -- the
uncaught AttributeError raised by `out.get` on a 200 body that is
valid JSON but not a dict -- escapes scrape_product (whose get_edt
call precedes its try) and aborts the fetch with no record. -/
theorem C8_eta_outcome (env : ScrapeEnv) (hs : storeOK env = true) :
    (env.edt_raw = EdtOutcome.returned none →
      ((scrape_product env = PyResult.ok none) ↔ catalogFails env = true) ∧
      (∀ r, scrape_product env = PyResult.ok (some r) → r.edt = "")) ∧
    (∀ est, env.edt_raw = EdtOutcome.returned est →
      ∀ r, scrape_product env = PyResult.ok (some r) →
        r.edt = firstDigitRun (pyStr est)) ∧
    (∀ m, env.edt_raw = EdtOutcome.raised m →
      scrape_product env = PyResult.exn m) := by
  refine ⟨?_, ?_, ?_⟩
  · intro hn
    rw [scrape_product_reached env none hs hn]
    constructor
    · constructor
      · intro h
        exact (scrapeWithStore_none_iff env none).mp (by injection h)
      · intro h
        rw [(scrapeWithStore_none_iff env none).mpr h]
    · intro r hr
      have hsw : scrapeWithStore env none = some r := by injection hr
      have he := scrapeWithStore_edt env none r hsw
      rw [he, firstDigitRun_pyStr_none]
  · intro est hest r hr
    rw [scrape_product_reached env est hs hest] at hr
    have hsw : scrapeWithStore env est = some r := by injection hr
    exact scrapeWithStore_edt env est r hsw
  · intro m hm
    exact scrape_product_raised env m hs hm

/-- C8 witness: with no estimate returned, a failing catalog yields
None for catalog reasons only and a successful catalog yields a record
with empty edt; with the raising ETA outcome the fetch propagates the
exception. -/
theorem C8_eta_outcome_witness :
    scrape_product envEdtNoneBadCatalog = PyResult.ok none ∧
    (fetchRecord (scrape_product envEdtNoneOkCatalog)).map ProductRecord.edt
      = some "" ∧
    scrape_product envEdtRaise = PyResult.exn "AttributeError" := by
  refine ⟨?_, ?_, ?_⟩
  · exact ((C8_eta_outcome envEdtNoneBadCatalog
      (by decide)).1 rfl).1.mpr (by decide)
  · have h := (C8_eta_outcome envEdtNoneOkCatalog (by decide)).1 rfl
    have hok := scrape_product_reached envEdtNoneOkCatalog none
      (by decide) rfl
    cases hsw : scrapeWithStore envEdtNoneOkCatalog none with
    | none =>
        exact absurd (h.1.mp (by rw [hok, hsw])) (by decide)
    | some r =>
        have he := h.2 r (by rw [hok, hsw])
        rw [hok, hsw]
        show some r.edt = some ""
        rw [he]
  · exact (C8_eta_outcome envEdtRaise (by decide)).2.2 "AttributeError" rfl

/-! ## C10 -/

/-- Environment whose coordinate resolver produced the exact 0.0
latitude (a successfully resolved coordinate value). -/
def envZeroLat : ScrapeEnv :=
  { source_date := "05-10-2026"
    pdp_url := "https://www.zepto.com/pn/item/pvid/sku-1"
    pincode := "500001", city := "Hyderabad", scraped_title := ""
    latlng := some (0, 77), storeResolved := some "store-1"
    edt_raw := .returned (some "10 mins")
    catalog := .resp 200 (some (.obj [])) }

/-- C10: when the coordinate resolver returns a latitude or longitude
of exactly 0.0, get_store_id_for_pincode treats the resolution as a
failure (the guard is value truthiness, not an absent-value test): it
returns (None, None, None) whatever the store oracle would say, the
store resolver is never invoked (the invocation flag is false), and
scrape_product returns None. -/
theorem C10_zero_coordinate_treated_as_failure (lat lng : Rat)
    (h : lat = 0 ∨ lng = 0) (oracle : Option String) (env : ScrapeEnv)
    (henv : env.latlng = some (lat, lng)) :
    get_store_id_for_pincode (some (lat, lng)) oracle
      = ((none, none, none), false) ∧
    scrape_product env = PyResult.ok none := by
  have hzero : (lat = 0 || lng = 0) = true := by
    rcases h with h | h <;> simp [h]
  constructor
  · simp [get_store_id_for_pincode, hzero]
  · unfold scrape_product
    rw [henv]
    simp [get_store_id_for_pincode, hzero]

/-- C10 witness: latitude exactly 0 with an available store oracle
still short-circuits to a full failure. -/
theorem C10_zero_coordinate_witness :
    get_store_id_for_pincode (some (0, 77)) (some "store-1")
      = ((none, none, none), false) ∧
    scrape_product envZeroLat = PyResult.ok none :=
  C10_zero_coordinate_treated_as_failure 0 77 (Or.inl rfl) (some "store-1")
    envZeroLat rfl

/-! ## C9 -/

/-- C9: the geocoder is total over every interaction outcome (the
whole call sits under except Exception, embedded here as a function
into String, so it never raises past its boundary and never yields a
null result): an exception becomes the string "Error: " followed by
the message, a missing location the sentinel "Location not found", an
address with no usable component the sentinel
"City not found in address data", and a found component is returned
as the city. -/
theorem C9_geocoder_total_with_sentinels (out : GeocodeOutcome) :
    (∀ msg, out = GeocodeOutcome.raised msg →
      get_city_from_pincode out = "Error: " ++ msg) ∧
    (out = GeocodeOutcome.notFound →
      get_city_from_pincode out = "Location not found") ∧
    (∀ addr, out = GeocodeOutcome.found addr →
      firstTruthy addr geocodeKeys = none →
      get_city_from_pincode out = "City not found in address data") ∧
    (∀ addr c, out = GeocodeOutcome.found addr →
      firstTruthy addr geocodeKeys = some c →
      get_city_from_pincode out = c) := by
  refine ⟨?_, ?_, ?_, ?_⟩
  · intro msg h; subst h; rfl
  · intro h; subst h; rfl
  · intro addr h hf; subst h; simp [get_city_from_pincode, hf]
  · intro addr c h hf; subst h; simp [get_city_from_pincode, hf]

/-- C9 witness: the no-location and exception outcomes at concrete
inputs. -/
theorem C9_geocoder_witness :
    get_city_from_pincode GeocodeOutcome.notFound = "Location not found" ∧
    get_city_from_pincode (GeocodeOutcome.raised "timeout")
      = "Error: timeout" :=
  ⟨(C9_geocoder_total_with_sentinels GeocodeOutcome.notFound).2.1 rfl,
   (C9_geocoder_total_with_sentinels (GeocodeOutcome.raised "timeout")).1
     "timeout" rfl⟩

/-! ## C3 -/

/-- Coordinate-resolver environment where both upstream calls
succeed. -/
def geoEnvBoth : GeoEnv := ⟨some "place-1", some (17, 78)⟩

/-- A retry-loop environment in which every attempt fails with a
transport error. -/
def httpFailEnv : Nat → HttpResp := fun _ => ⟨true, 0, none⟩

/-- C3 (counterexample): in the coordinate resolver,
get_fresh_headers is called once, so when both sequential upstream
calls happen they carry the same identity (here counter value 7): two
outbound calls, one distinct identity, refuting the claim that each
of the two calls carries its own freshly generated identity. -/
theorem C3_counterexample :
    (get_lat_long_zepto geoEnvBoth 7).2
      = [⟨"autocomplete", 7⟩, ⟨"details", 7⟩] ∧
    ¬ (((get_lat_long_zepto geoEnvBoth 7).2).map ApiCall.identity).Nodup :=
  ⟨rfl, by decide⟩

/-- C3 (amended): the store resolver generates a fresh identity for
every attempt, never reused across attempts (the identities of its
attempt trace are pairwise distinct, one per attempt made); the
coordinate resolver, by contrast, generates a single identity at
entry and reuses it for both of its sequential upstream calls. -/
theorem C3_amended_identity_generation (env : Nat → HttpResp)
    (base : Rat) (ctr m : Nat) (genv : GeoEnv) (ctr2 : Nat) :
    (((get_zepto_store_id env base ctr m).2).map AttemptRec.identity).Nodup ∧
    (((get_zepto_store_id env base ctr m).2).map AttemptRec.identity).length
      = ((get_zepto_store_id env base ctr m).2).length ∧
    (∀ c ∈ (get_lat_long_zepto genv ctr2).2, c.identity = ctr2) := by
  refine ⟨?_, List.length_map _ _, ?_⟩
  · have h := retryGo_map_identity (fun i => classifyStore (env i)) base m 0 ctr
    unfold get_zepto_store_id
    rw [h]
    exact List.nodup_range' _ _
  · intro c hc
    rcases genv with ⟨auto, det⟩
    simp only [get_lat_long_zepto] at hc
    cases auto with
    | none =>
        simp only [List.mem_singleton] at hc
        subst hc; rfl
    | some pid =>
        cases det with
        | none =>
            simp only [List.mem_cons, List.mem_singleton] at hc
            rcases hc with hc | hc | hc
            · subst hc; rfl
            · subst hc; rfl
            · cases hc
        | some ll =>
            simp only [List.mem_cons, List.mem_singleton] at hc
            rcases hc with hc | hc | hc
            · subst hc; rfl
            · subst hc; rfl
            · cases hc

/-- C3 witness: two failing store-resolution attempts carry the two
distinct identities 10 and 11; a concrete coordinate-resolver call
carries the entry identity 5. -/
theorem C3_amended_identity_generation_witness :
    (((get_zepto_store_id httpFailEnv 3 10 2).2).map AttemptRec.identity).Nodup ∧
    (⟨"details", 5⟩ : ApiCall).identity = 5 := by
  have h := C3_amended_identity_generation httpFailEnv 3 10 2 geoEnvBoth 5
  exact ⟨h.1, h.2.2 ⟨"details", 5⟩ (by decide)⟩

/-! ## C6 -/

/-- C6: in both the store resolver and the ETA resolver, for any
attempt budget, no sleep happens before attempt 0 and the sleep
performed before attempt i (0-indexed, i positive) is
base_delay * (i + 1) -- linear backoff; the attempt indices of the
executed trace are exactly 0, 1, 2, ... in order. -/
theorem C6_linear_backoff (envS envE : Nat → HttpResp) (base : Rat)
    (ctrS mS ctrE mE : Nat) :
    (∀ r ∈ (get_zepto_store_id envS base ctrS mS).2,
      r.preDelay = if r.idx = 0 then none
                   else some (base * ((r.idx : Rat) + 1))) ∧
    (((get_zepto_store_id envS base ctrS mS).2).map AttemptRec.idx
      = List.range' 0 ((get_zepto_store_id envS base ctrS mS).2).length) ∧
    (∀ r ∈ (get_edt envE base ctrE mE).2,
      r.preDelay = if r.idx = 0 then none
                   else some (base * ((r.idx : Rat) + 1))) ∧
    (((get_edt envE base ctrE mE).2).map AttemptRec.idx
      = List.range' 0 ((get_edt envE base ctrE mE).2).length) :=
  ⟨retryGo_preDelay _ base mS 0 ctrS,
   retryGo_map_idx _ base mS 0 ctrS,
   retryGo_preDelay _ base mE 0 ctrE,
   retryGo_map_idx _ base mE 0 ctrE⟩

/-- C6 witness: with base delay 3 and failing attempts, the first
attempt's record (index 0, identity 10) carries no sleep, as the
theorem prescribes. -/
theorem C6_linear_backoff_witness :
    (⟨0, 10, none⟩ : AttemptRec).preDelay
      = (if (⟨0, 10, (none : Option Rat)⟩ : AttemptRec).idx = 0 then none
         else some ((3 : Rat)
           * (((⟨0, 10, (none : Option Rat)⟩ : AttemptRec).idx : Rat) + 1))) := by
  have hmem : (⟨0, 10, none⟩ : AttemptRec)
      ∈ (get_zepto_store_id httpFailEnv 3 10 2).2 := by
    show (⟨0, 10, none⟩ : AttemptRec)
      ∈ (retryGo (fun i => classifyStore (httpFailEnv i)) 3 (1 + 1) 0 10).2
    simp only [retryGo, retryStep, httpFailEnv, classifyStore, if_pos]
    exact List.mem_cons_self _ _
  exact (C6_linear_backoff httpFailEnv httpFailEnv 3 10 2 20 2).1
    ⟨0, 10, none⟩ hmem

/-! ## C4 -/

/-- C4 (counterexample): scrape_task contains no exception handler,
so an exception outcome of the product fetch propagates out of the
task unchanged instead of being converted to the tagged failed
payload, refuting the claim that the per-item task catches it. -/
theorem C4_counterexample :
    scrape_task "https://www.zepto.com/pn/item/pvid/sku-1" "500001"
      (PyResult.exn "boom") = PyResult.exn "boom" ∧
    scrape_task "https://www.zepto.com/pn/item/pvid/sku-1" "500001"
      (PyResult.exn "boom")
      ≠ PyResult.ok
        (failedPayload "https://www.zepto.com/pn/item/pvid/sku-1" "500001") := by
  refine ⟨rfl, ?_⟩
  intro h
  simp [scrape_task] at h

/-- C4 (amended): scrape_task has no exception handler -- an exception
outcome of scrape_product propagates out of the task unchanged; the
task converts only a None result (which is how scrape_product reports
every failure it handles) into the tagged failed payload carrying the
url and pincode, and a record into the tagged success payload; an
exception surfacing from a task is counted as failed by the Batch
Runner's own per-future handler, so it is handled at the batch layer,
not the orchestrator layer. -/
theorem C4_amended_task_error_paths (u p m : String) (r : ProductRecord) :
    scrape_task u p (PyResult.exn m) = PyResult.exn m ∧
    scrape_task u p (PyResult.ok none) = PyResult.ok (failedPayload u p) ∧
    (failedPayload u p).status = "failed" ∧
    (failedPayload u p).url = u ∧
    (failedPayload u p).pincode = p ∧
    scrape_task u p (PyResult.ok (some r))
      = PyResult.ok (successPayload r u p) ∧
    countOutcome (PyResult.exn m) = false :=
  ⟨rfl, rfl, rfl, rfl, rfl, rfl, rfl⟩

/-! ## C5 -/

/-- C5: run_batch on an empty input returns all-zero counts for every
chunk size, submitting no tasks at all; and on K items with chunk
size at least K it returns total = K with success + failed = K,
submitting each item exactly once, regardless of the individual task
outcomes. -/
theorem C5_run_batch_counts (tasks : List (PyResult Payload)) (n : Nat)
    (h : tasks.length ≤ n) :
    run_batch [] n = PyResult.ok (⟨0, 0, 0⟩, 0) ∧
    ∃ s f, run_batch tasks n
        = PyResult.ok (⟨tasks.length, s, f⟩, tasks.length) ∧
      s + f = tasks.length := by
  refine ⟨rfl, ?_⟩
  cases tasks with
  | nil => exact ⟨0, 0, rfl, rfl⟩
  | cons t rest =>
      have hlen : ¬((t :: rest).length = 0) := by simp
      have hn : ¬(n = 0) := by
        simp only [List.length_cons] at h
        omega
      have hch := chunked_of_le t rest n h
      refine ⟨(countChunk (0, 0) (t :: rest)).1,
        (countChunk (0, 0) (t :: rest)).2, ?_, ?_⟩
      · unfold run_batch
        rw [if_neg hlen, if_neg hn, hch]
        simp
      · have hsum := countChunk_sum (t :: rest) 0 0
        omega

/-- C5 witness: the empty batch at chunk size 5, and a singleton
batch (one failed outcome) at chunk size 5. -/
theorem C5_run_batch_counts_witness :
    run_batch [] 5 = PyResult.ok (⟨0, 0, 0⟩, 0) ∧
    run_batch [PyResult.ok (failedPayload "u" "500001")] 5
      = PyResult.ok (⟨1, 0, 1⟩, 1) := by
  have h := C5_run_batch_counts [PyResult.ok (failedPayload "u" "500001")] 5
    (by decide)
  exact ⟨h.1, rfl⟩
